import Mathlib

set_option autoImplicit false

namespace DRAMSys

/-- Enumerated protocol operation, from the spec's data model (the Command
enum of the controller: ACTIVATE, PRECHARGE, READ, WRITE, REFRESH_ALL_BANK,
REFRESH_SINGLE_BANK, POWER_DOWN_ENTRY/EXIT, NOP). -/
inductive Command where
| ACTIVATE
| PRECHARGE
| READ
| WRITE
| REFRESH_ALL_BANK
| REFRESH_SINGLE_BANK
| POWER_DOWN_ENTRY
| POWER_DOWN_EXIT
| NOP
deriving DecidableEq, Repr

/-- RefreshManager state, from `RefreshManagerAllBank.h`:
`enum class State {Regular, Pulledin}`. -/
inductive RState where
| Regular
| Pulledin
deriving DecidableEq, Repr

/-- Configuration constants of `RefreshManagerAllBank` (the `const` members of
the header: `maxPostponed`, `maxPulledin`, `refreshManagement`, plus the
nominal refresh interval tREFI obtained from the MemSpec). Simulated time is
modelled as a Nat threaded explicitly through each call. -/
structure RefreshConfig where
  tREFI : Nat
  maxPostponed : Int
  maxPulledin : Int
  refreshManagement : Bool
deriving Repr

/-- Mutable state of `RefreshManagerAllBank`, from the data members of
`RefreshManagerAllBank.h` lines 65-79: `state`, `timeForNextTrigger`,
`nextCommand`, `activatedBanks`, `flexibilityCounter`, `sleeping`.
`fatalRaised` records that a fatal protocol-violation diagnostic
(SC_REPORT_FATAL) was raised; after that the simulation halts, modelled by
freezing the state. -/
structure RefreshManagerAllBank where
  state : RState
  timeForNextTrigger : Nat
  nextCommand : Command
  activatedBanks : Nat
  flexibilityCounter : Int
  sleeping : Bool
  fatalRaised : Bool
deriving DecidableEq, Repr

namespace RefreshManagerAllBank

/-- Modelled from the spec: the constructor body of RefreshManagerAllBank.cpp
is not in the visible sources (only the header declaration is). Initial state
per the spec: state Regular, counter = 0, no command proposed, and the first
mandatory all-bank refresh deadline one nominal interval after start
(Scenario A: interval 100 gives proposals at t=100, 200, ...). -/
def init (cfg : RefreshConfig) : RefreshManagerAllBank :=
  { state := RState.Regular
    timeForNextTrigger := cfg.tREFI
    nextCommand := Command.NOP
    activatedBanks := 0
    flexibilityCounter := 0
    sleeping := false
    fatalRaised := false }

/-- An all-bank refresh can issue only when every bank of the rank is idle
and the rank is awake (spec: `if ActivatedBanks == 0 and SleepFlag == false`). -/
def canIssueRefresh (s : RefreshManagerAllBank) : Bool :=
  decide (s.activatedBanks = 0 ∧ s.sleeping = false)

/-- Postponement is available when refresh-management flexibility is enabled
and postponement credit remains (counter still above `-maxPostponed`). -/
def postponeEligible (cfg : RefreshConfig) (s : RefreshManagerAllBank) : Bool :=
  cfg.refreshManagement && decide (-cfg.maxPostponed < s.flexibilityCounter)

/-- A pull-in (early refresh) may be proposed when flexibility is enabled, the
manager is in Regular state, the rank is idle and awake, and pull-in credit
remains (counter below `maxPulledin`). -/
def pullInEligible (cfg : RefreshConfig) (s : RefreshManagerAllBank) : Bool :=
  cfg.refreshManagement && decide (s.state = RState.Regular) && canIssueRefresh s &&
    decide (s.flexibilityCounter < cfg.maxPulledin)

/-- Modelled from the spec: `evaluate()` of RefreshManagerAllBank.cpp is not in
the visible sources. Decision algorithm per spec section 4.2: at or past the
mandatory deadline, propose REFRESH_ALL_BANK if the rank is idle and awake;
otherwise, with flexibility enabled and postponement credit remaining, consume
one unit of credit, cache NOP and retain the deadline; with no credit left,
raise a fatal protocol violation. In Pulledin state a reached deadline was
repaid by the earlier pulled-in refresh: return to Regular, unwind the pull-in
credit and advance the deadline. Before the deadline, optionally propose an
early REFRESH_ALL_BANK when pull-in conditions hold, else cache NOP. -/
def evaluate (cfg : RefreshConfig) (now : Nat) (s : RefreshManagerAllBank) :
    RefreshManagerAllBank :=
  if s.fatalRaised then s
  else if s.timeForNextTrigger ≤ now then
    if s.state = RState.Pulledin then
      { s with state := RState.Regular
               flexibilityCounter := s.flexibilityCounter - 1
               timeForNextTrigger := s.timeForNextTrigger + cfg.tREFI
               nextCommand := Command.NOP }
    else if canIssueRefresh s then
      { s with nextCommand := Command.REFRESH_ALL_BANK }
    else if postponeEligible cfg s then
      { s with flexibilityCounter := s.flexibilityCounter - 1
               nextCommand := Command.NOP }
    else
      { s with fatalRaised := true, nextCommand := Command.NOP }
  else
    if pullInEligible cfg s then
      { s with nextCommand := Command.REFRESH_ALL_BANK }
    else
      { s with nextCommand := Command.NOP }

/-- Modelled from the spec: `getNextCommand()` of RefreshManagerAllBank.cpp is
not in the visible sources. Per the spec it returns the cached proposal (NOP
if none due) and has no side effect; modelled as returning the cached command
together with the unchanged state. -/
def getNextCommand (s : RefreshManagerAllBank) : Command × RefreshManagerAllBank :=
  (s.nextCommand, s)

/-- Modelled from the spec: `getTimeForNextTrigger()` of
RefreshManagerAllBank.cpp is not in the visible sources. Per the spec it
reports the earliest time the decision might change, with no side effect. -/
def getTimeForNextTrigger (s : RefreshManagerAllBank) : Nat × RefreshManagerAllBank :=
  (s.timeForNextTrigger, s)

/-- Modelled from the spec: `update(Command)` of RefreshManagerAllBank.cpp is
not in the visible sources. Per spec section 4.2/4.3 the manager reconciles
its counters strictly against the command that actually won arbitration this
round: ACTIVATE/PRECHARGE track the rank's activated-bank count, power-down
entry/exit track the sleep flag, and a committed REFRESH_ALL_BANK before the
deadline confirms a credit-consuming early issuance (Regular to Pulledin,
guarded so the pull-in credit bound is honoured), while one at or past the
deadline repays the due deadline, advancing it by one nominal interval and
repaying one unit of outstanding postponement debt. After the committed
command is processed the round is over; no proposal is outstanding until the
next `evaluate`, so the cached proposal reverts to NOP. -/
def update (cfg : RefreshConfig) (now : Nat) (cmd : Command)
    (s : RefreshManagerAllBank) : RefreshManagerAllBank :=
  if s.fatalRaised then s
  else
    match cmd with
    | Command.ACTIVATE =>
      { s with nextCommand := Command.NOP, activatedBanks := s.activatedBanks + 1 }
    | Command.PRECHARGE =>
      { s with nextCommand := Command.NOP, activatedBanks := s.activatedBanks - 1 }
    | Command.POWER_DOWN_ENTRY =>
      { s with nextCommand := Command.NOP, sleeping := true }
    | Command.POWER_DOWN_EXIT =>
      { s with nextCommand := Command.NOP, sleeping := false }
    | Command.REFRESH_ALL_BANK =>
      if now < s.timeForNextTrigger then
        if decide (s.state = RState.Regular) &&
            decide (s.flexibilityCounter < cfg.maxPulledin) then
          { s with nextCommand := Command.NOP
                   state := RState.Pulledin
                   flexibilityCounter := s.flexibilityCounter + 1 }
        else { s with nextCommand := Command.NOP }
      else
        { s with nextCommand := Command.NOP
                 timeForNextTrigger := s.timeForNextTrigger + cfg.tREFI
                 flexibilityCounter :=
                   if s.flexibilityCounter < 0 then s.flexibilityCounter + 1
                   else s.flexibilityCounter }
    | _ => { s with nextCommand := Command.NOP }

/-- One call of the four-operation scheduling-protocol contract, with the
simulated time of the call threaded explicitly. -/
inductive Op where
| evaluateOp (now : Nat)
| getNextCommandOp
| updateOp (now : Nat) (cmd : Command)
| getTimeForNextTriggerOp

/-- State transformer of a single protocol call. -/
def applyOp (cfg : RefreshConfig) (s : RefreshManagerAllBank) : Op → RefreshManagerAllBank
| Op.evaluateOp now => evaluate cfg now s
| Op.getNextCommandOp => (getNextCommand s).2
| Op.updateOp now cmd => update cfg now cmd s
| Op.getTimeForNextTriggerOp => (getTimeForNextTrigger s).2

/-- State after a sequence of protocol calls from construction. -/
def runOps (cfg : RefreshConfig) (ops : List Op) : RefreshManagerAllBank :=
  ops.foldl (applyOp cfg) (init cfg)

/-- A state is reachable when some sequence of evaluate/getNextCommand/update/
getTimeForNextTrigger calls from construction produces it. -/
def Reachable (cfg : RefreshConfig) (s : RefreshManagerAllBank) : Prop :=
  ∃ ops : List Op, runOps cfg ops = s

end RefreshManagerAllBank

/-- A TLM generic payload as far as the memory specification queries consume
it: command tag and routing address, no data bytes (spec data model,
TransactionDescriptor). -/
structure Payload where
  address : Nat
  command : Command
deriving DecidableEq, Repr

/-- Interval on the data strobe, `TimeInterval` of the C++ sources; the
default constructor `TimeInterval()` gives the zero interval. -/
structure TimeInterval where
  intervalStart : Nat := 0
  intervalEnd : Nat := 0
deriving DecidableEq, Repr

/-- The degenerate DDR5 memory specification of MemSpecDDR5.cpp. Its
constructor delegates to the MemSpec base with all-zero geometry arguments and
then immediately calls SC_REPORT_FATAL("MemSpecDDR5", "DDR5 model not
included!"); `fatalReported` records that diagnostic, `fatalActor` and
`fatalMessage` its two arguments. -/
structure MemSpecDDR5 where
  fatalReported : Bool
  fatalActor : String
  fatalMessage : String
  numberOfChannels : Nat
  ranksPerChannel : Nat
  banksPerRank : Nat
  groupsPerRank : Nat
  banksPerGroup : Nat
  rowsPerBank : Nat
  columnsPerRow : Nat
  bitsPerColumn : Nat
deriving DecidableEq, Repr

namespace MemSpecDDR5

/-- Constructor `MemSpecDDR5::MemSpecDDR5(json&)`: base-initializes with eight
zero geometry constants and raises the fatal diagnostic at once. -/
def construct : MemSpecDDR5 :=
  { fatalReported := true
    fatalActor := "MemSpecDDR5"
    fatalMessage := "DDR5 model not included!"
    numberOfChannels := 0
    ranksPerChannel := 0
    banksPerRank := 0
    groupsPerRank := 0
    banksPerGroup := 0
    rowsPerBank := 0
    columnsPerRow := 0
    bitsPerColumn := 0 }

/-- `MemSpecDDR5::getExecutionTime` returns SC_ZERO_TIME for every command and
payload. -/
def getExecutionTime (_ : MemSpecDDR5) (_ : Command) (_ : Payload) : Nat := 0

/-- `MemSpecDDR5::getIntervalOnDataStrobe` returns the default `TimeInterval()`. -/
def getIntervalOnDataStrobe (_ : MemSpecDDR5) (_ : Command) : TimeInterval :=
  {}

/-- `MemSpecDDR5::getSimMemSizeInBytes` returns 0. -/
def getSimMemSizeInBytes (_ : MemSpecDDR5) : Nat := 0

end MemSpecDDR5

/-- Driver-side counter state of `sc_main` (main.cpp lines 92-99): the number
of initiators that have signalled completion, and whether `sc_stop` has been
requested. -/
structure DriverState where
  terminatedInitiators : Nat
  stopRequested : Bool
deriving DecidableEq, Repr

/-- Initial driver counter state: `unsigned int terminatedInitiators = 0`,
no stop requested yet. -/
def DriverState.start : DriverState :=
  { terminatedInitiators := 0, stopRequested := false }

/-- The counted termination callback of main.cpp (the lambda named
`termianteInitiator`, spelling as in the source): increments
`terminatedInitiators` and calls `sc_stop()` exactly when the new count equals
`initiators.size()`, here the parameter `numInitiators`. -/
def termianteInitiator (numInitiators : Nat) (s : DriverState) : DriverState :=
  let t := s.terminatedInitiators + 1
  { terminatedInitiators := t
    stopRequested := s.stopRequested || decide (t = numInitiators) }

/-- Driver counter state after the callback has fired `k` times. -/
def runCallbacks (numInitiators k : Nat) : DriverState :=
  Nat.rec DriverState.start (fun _ s => termianteInitiator numInitiators s) k

/-- The filename component of a path string: the suffix after the last slash
(std::filesystem semantics for the paths main.cpp builds). -/
def afterLastSlash (cs : List Char) : List Char :=
  cs.foldl (fun acc c => if c = '/' then [] else acc ++ [c]) []

/-- The suffix of a character list starting at its last dot, when a dot
occurs. -/
def lastDotSuffix : List Char → Option (List Char)
| [] => none
| c :: rest =>
  match lastDotSuffix rest with
  | some s => some s
  | none => if c = '.' then some (c :: rest) else none

/-- `std::filesystem::path::extension()` on the path main.cpp builds for a
trace file: the substring of the filename from its last dot, except that "."
and ".." and a filename whose only dot is the leading one (a dotfile) have no
extension. -/
def pathExtension (p : String) : String :=
  let name := afterLastSlash p.toList
  if name = ['.'] ∨ name = ['.', '.'] then ""
  else
    match lastDotSuffix name with
    | none => ""
    | some suffix => if suffix = name ∧ name.head? = some '.' then "" else String.mk suffix

/-- Trace interpretation selected for an StlPlayer, from main.cpp lines
135-146. -/
inductive TraceType where
| Absolute
| Relative
deriving DecidableEq, Repr

/-- The trace-format dispatch of main.cpp lines 137-146: ".stl" plays with
absolute timestamps, ".rstl" with relative ones, and any other extension is a
fatal diagnostic whose message names that extension. -/
def selectTraceType (ext : String) : Except String TraceType :=
  if ext = ".stl" then Except.ok TraceType.Absolute
  else if ext = ".rstl" then Except.ok TraceType.Relative
  else Except.error (ext ++ " is not a valid trace format.")

/-- An StlPlayer as far as the driver constructs one: the trace path and the
selected trace interpretation. -/
structure StlPlayer where
  tracePath : String
  traceType : TraceType
deriving DecidableEq, Repr

/-- The TracePlayer branch of the initiator-construction visit in main.cpp:
compute the extension of the trace path, select the trace type, and only on
success construct a player; an unrecognized extension is a fatal report and
no player is constructed. -/
def buildTracePlayerInitiator (name : String) : Except String StlPlayer :=
  match selectTraceType (pathExtension name) with
  | Except.ok tt => Except.ok { tracePath := name, traceType := tt }
  | Except.error msg => Except.error msg

/-- One entry of the configuration's tracesetup, following the variant the
visit in main.cpp dispatches on. -/
inductive InitiatorConfig where
| trafficGenerator
| tracePlayer (name : String)
| rowHammer
deriving DecidableEq, Repr

/-- Kind tag of a constructed initiator. -/
inductive InitiatorKind where
| generator
| player
| hammer
deriving DecidableEq, Repr

/-- Observable driver actions of `sc_main`, in program order. -/
inductive DriverEvent where
| fatalReport (actor msg : String)
| warningReport (actor msg : String)
| buildMemorySubsystem
| buildInitiator (kind : InitiatorKind)
| startSimulation
| forcedStop
| reportElapsed
deriving DecidableEq, Repr

/-- Construction of one initiator from its tracesetup entry (the std::visit
lambda of main.cpp lines 116-173): a fatal report aborts construction. -/
def buildOneInitiator : InitiatorConfig → Except DriverEvent DriverEvent
| InitiatorConfig.trafficGenerator =>
  Except.ok (DriverEvent.buildInitiator InitiatorKind.generator)
| InitiatorConfig.rowHammer =>
  Except.ok (DriverEvent.buildInitiator InitiatorKind.hammer)
| InitiatorConfig.tracePlayer name =>
  match buildTracePlayerInitiator name with
  | Except.ok _ => Except.ok (DriverEvent.buildInitiator InitiatorKind.player)
  | Except.error msg => Except.error (DriverEvent.fatalReport "Simulator" msg)

/-- The initiator-construction loop of main.cpp lines 111-179: build each
configured initiator in order; a fatal report stops the loop (SC_REPORT_FATAL
aborts), returning the events up to and including the fatal one. -/
def buildInitiators : List InitiatorConfig → Except (List DriverEvent) (List DriverEvent)
| [] => Except.ok []
| c :: rest =>
  match buildOneInitiator c with
  | Except.error ev => Except.error [ev]
  | Except.ok ev =>
    match buildInitiators rest with
    | Except.error evs => Except.error (ev :: evs)
    | Except.ok evs => Except.ok (ev :: evs)

/-- The configuration slice `sc_main` consumes: whether a tracesetup section
is present and, when it is, the configured initiators. -/
structure SimulatorConfig where
  tracesetup : Option (List InitiatorConfig)
deriving DecidableEq, Repr

/-- Shallow embedding of `sc_main` (main.cpp lines 57-199) as the list of
observable driver events plus the return code (`none` when SC_REPORT_FATAL
aborts the run). `endInvoked` is what `sc_end_of_simulation_invoked()` reports
after `sc_start` returns: `false` means the event loop drained without an
explicit `sc_stop`. Program order from the source: the tracesetup presence
check, then memory-subsystem construction, then initiator construction, then
`sc_start`, then the drained-without-stop warning and forced stop, then the
elapsed-time report and `return 0`. -/
def scMain (cfg : SimulatorConfig) (endInvoked : Bool) : List DriverEvent × Option Nat :=
  match cfg.tracesetup with
  | none => ([DriverEvent.fatalReport "Simulator" "No traffic initiators specified"], none)
  | some setups =>
    match buildInitiators setups with
    | Except.error evs => (DriverEvent.buildMemorySubsystem :: evs, none)
    | Except.ok evs =>
      (DriverEvent.buildMemorySubsystem :: evs ++
         [DriverEvent.startSimulation] ++
         (if endInvoked then []
          else [DriverEvent.warningReport "sc_main" "Simulation stopped without explicit sc_stop()",
                DriverEvent.forcedStop]) ++
         [DriverEvent.reportElapsed], some 0)

/-- A sample valid configuration (positive flexibility bounds, flexibility
enabled, nominal interval 100) used to instantiate theorems on concrete
inputs. -/
def sampleConfig : RefreshConfig :=
  { tREFI := 100, maxPostponed := 2, maxPulledin := 2, refreshManagement := true }

/-- The sample configuration with refresh-management flexibility disabled. -/
def sampleConfigNoFlex : RefreshConfig :=
  { tREFI := 100, maxPostponed := 2, maxPulledin := 2, refreshManagement := false }

/-- A concrete manager state at its deadline with one bank activated, used to
instantiate the postponement theorem. -/
def sampleBlocked : RefreshManagerAllBank :=
  { state := RState.Regular
    timeForNextTrigger := 100
    nextCommand := Command.NOP
    activatedBanks := 1
    flexibilityCounter := 0
    sleeping := false
    fatalRaised := false }

/-- The sample blocked state with its postponement credit exhausted. -/
def sampleExhausted : RefreshManagerAllBank :=
  { sampleBlocked with flexibilityCounter := -2 }

namespace RefreshManagerAllBank

/-- The flexibility-counter invariant, strengthened for the induction: the
counter stays within the configured bounds, and in Pulledin state it sits
strictly above the postponement floor (the pull-in that entered the state
raised it). -/
abbrev CounterInv (cfg : RefreshConfig) (s : RefreshManagerAllBank) : Prop :=
  -cfg.maxPostponed ≤ s.flexibilityCounter ∧ s.flexibilityCounter ≤ cfg.maxPulledin ∧
    (s.state = RState.Pulledin → -cfg.maxPostponed < s.flexibilityCounter)

/-- The cached-proposal invariant: an all-bank refresh is cached only while
the rank is idle and awake. -/
abbrev ProposalInv (s : RefreshManagerAllBank) : Prop :=
  s.nextCommand = Command.REFRESH_ALL_BANK → s.activatedBanks = 0 ∧ s.sleeping = false

lemma counterInv_init (cfg : RefreshConfig) (hp : 0 < cfg.maxPostponed)
    (hq : 0 < cfg.maxPulledin) : CounterInv cfg (init cfg) := by
  refine ⟨?_, ?_, ?_⟩
  · show -cfg.maxPostponed ≤ (0 : Int)
    omega
  · show (0 : Int) ≤ cfg.maxPulledin
    omega
  · intro hc
    simp [init] at hc

lemma counterInv_evaluate (cfg : RefreshConfig) (now : Nat) (s : RefreshManagerAllBank)
    (h : CounterInv cfg s) (_hq : 0 < cfg.maxPulledin) :
    CounterInv cfg (evaluate cfg now s) := by
  obtain ⟨h1, h2, h3⟩ := h
  unfold evaluate
  split_ifs with hf hd hpull hcan hpost hpe
  · exact ⟨h1, h2, h3⟩
  · have hx := h3 hpull
    refine ⟨?_, ?_, ?_⟩ <;> dsimp only
    · omega
    · omega
    · intro hc
      simp at hc
  · exact ⟨h1, h2, h3⟩
  · simp only [postponeEligible, Bool.and_eq_true, decide_eq_true_eq] at hpost
    refine ⟨?_, ?_, ?_⟩ <;> dsimp only
    · omega
    · omega
    · exact fun hc => absurd hc hpull
  · exact ⟨h1, h2, h3⟩
  · exact ⟨h1, h2, h3⟩
  · exact ⟨h1, h2, h3⟩

lemma counterInv_update (cfg : RefreshConfig) (now : Nat) (cmd : Command)
    (s : RefreshManagerAllBank) (h : CounterInv cfg s) (hq : 0 < cfg.maxPulledin) :
    CounterInv cfg (update cfg now cmd s) := by
  obtain ⟨h1, h2, h3⟩ := h
  unfold update
  split_ifs with hf ht hg hneg
  · exact ⟨h1, h2, h3⟩
  · simp only [Bool.and_eq_true, decide_eq_true_eq] at hg
    cases cmd
    all_goals try exact ⟨h1, h2, h3⟩
    refine ⟨?_, ?_, ?_⟩ <;> dsimp only
    · omega
    · omega
    · exact fun _ => by omega
  · cases cmd
    all_goals exact ⟨h1, h2, h3⟩
  · cases cmd
    all_goals try exact ⟨h1, h2, h3⟩
    refine ⟨?_, ?_, ?_⟩ <;> dsimp only
    · omega
    · omega
    · intro hc
      have hx := h3 hc
      omega
  · cases cmd
    all_goals exact ⟨h1, h2, h3⟩

lemma counterInv_applyOp (cfg : RefreshConfig) (s : RefreshManagerAllBank) (op : Op)
    (h : CounterInv cfg s) (hq : 0 < cfg.maxPulledin) :
    CounterInv cfg (applyOp cfg s op) := by
  cases op with
  | evaluateOp now => exact counterInv_evaluate cfg now s h hq
  | getNextCommandOp => exact h
  | updateOp now cmd => exact counterInv_update cfg now cmd s h hq
  | getTimeForNextTriggerOp => exact h

lemma counterInv_foldl (cfg : RefreshConfig) (hq : 0 < cfg.maxPulledin) :
    ∀ (ops : List Op) (s : RefreshManagerAllBank), CounterInv cfg s →
      CounterInv cfg (ops.foldl (applyOp cfg) s)
  | [], _, h => h
  | op :: rest, s, h =>
    counterInv_foldl cfg hq rest (applyOp cfg s op) (counterInv_applyOp cfg s op h hq)

lemma counterInv_reachable (cfg : RefreshConfig) (hp : 0 < cfg.maxPostponed)
    (hq : 0 < cfg.maxPulledin) (s : RefreshManagerAllBank) (h : Reachable cfg s) :
    CounterInv cfg s := by
  obtain ⟨ops, rfl⟩ := h
  exact counterInv_foldl cfg hq ops (init cfg) (counterInv_init cfg hp hq)

lemma proposalInv_evaluate (cfg : RefreshConfig) (now : Nat) (s : RefreshManagerAllBank)
    (h : ProposalInv s) : ProposalInv (evaluate cfg now s) := by
  unfold evaluate
  split_ifs with hf hd hpull hcan hpost hpe
  · exact h
  · intro hc
    simp at hc
  · simp only [canIssueRefresh, decide_eq_true_eq] at hcan
    exact fun _ => hcan
  · intro hc
    simp at hc
  · intro hc
    simp at hc
  · simp only [pullInEligible, canIssueRefresh, Bool.and_eq_true, decide_eq_true_eq] at hpe
    exact fun _ => hpe.1.2
  · intro hc
    simp at hc

lemma proposalInv_update (cfg : RefreshConfig) (now : Nat) (cmd : Command)
    (s : RefreshManagerAllBank) (h : ProposalInv s) : ProposalInv (update cfg now cmd s) := by
  unfold update
  split_ifs with hf ht hg hneg
  all_goals first
    | exact h
    | (cases cmd <;> intro hc <;> simp at hc)

lemma proposalInv_applyOp (cfg : RefreshConfig) (s : RefreshManagerAllBank) (op : Op)
    (h : ProposalInv s) : ProposalInv (applyOp cfg s op) := by
  cases op with
  | evaluateOp now => exact proposalInv_evaluate cfg now s h
  | getNextCommandOp => exact h
  | updateOp now cmd => exact proposalInv_update cfg now cmd s h
  | getTimeForNextTriggerOp => exact h

lemma proposalInv_foldl (cfg : RefreshConfig) :
    ∀ (ops : List Op) (s : RefreshManagerAllBank), ProposalInv s →
      ProposalInv (ops.foldl (applyOp cfg) s)
  | [], _, h => h
  | op :: rest, s, h =>
    proposalInv_foldl cfg rest (applyOp cfg s op) (proposalInv_applyOp cfg s op h)

end RefreshManagerAllBank

/-- C1: for every reachable state of the RefreshManager (any sequence of
evaluate/getNextCommand/update/getTimeForNextTrigger calls from construction,
with positive configured flexibility bounds), the flexibility counter
satisfies `-maxPostponed <= flexibilityCounter <= maxPulledin`. -/
theorem flexibility_counter_bounded (cfg : RefreshConfig) (hp : 0 < cfg.maxPostponed)
    (hq : 0 < cfg.maxPulledin) (s : RefreshManagerAllBank)
    (h : RefreshManagerAllBank.Reachable cfg s) :
    -cfg.maxPostponed ≤ s.flexibilityCounter ∧ s.flexibilityCounter ≤ cfg.maxPulledin := by
  have hinv := RefreshManagerAllBank.counterInv_reachable cfg hp hq s h
  exact ⟨hinv.1, hinv.2.1⟩

/-- Witness for C1 at a concrete configuration and the reachable initial
state. -/
theorem flexibility_counter_bounded_witness :
    -sampleConfig.maxPostponed ≤ (RefreshManagerAllBank.init sampleConfig).flexibilityCounter ∧
      (RefreshManagerAllBank.init sampleConfig).flexibilityCounter ≤ sampleConfig.maxPulledin :=
  flexibility_counter_bounded sampleConfig (by decide) (by decide) _ ⟨[], rfl⟩

/-- C2: in every reachable state of the RefreshManager, the cached proposal
returned by getNextCommand is never REFRESH_ALL_BANK while the rank's
activated-bank count is greater than zero or the sleeping flag is true. -/
theorem refresh_proposal_requires_idle_awake (cfg : RefreshConfig)
    (s : RefreshManagerAllBank) (h : RefreshManagerAllBank.Reachable cfg s)
    (hc : (RefreshManagerAllBank.getNextCommand s).1 = Command.REFRESH_ALL_BANK) :
    s.activatedBanks = 0 ∧ s.sleeping = false := by
  obtain ⟨ops, rfl⟩ := h
  have hinit : RefreshManagerAllBank.ProposalInv (RefreshManagerAllBank.init cfg) := by
    intro hcmd
    simp [RefreshManagerAllBank.init] at hcmd
  exact RefreshManagerAllBank.proposalInv_foldl cfg ops _ hinit hc

/-- Witness for C2: after an evaluate at the first deadline of the sample
configuration the cached proposal is REFRESH_ALL_BANK, and the theorem yields
that the rank is idle and awake there. -/
theorem refresh_proposal_requires_idle_awake_witness :
    (RefreshManagerAllBank.runOps sampleConfig
        [RefreshManagerAllBank.Op.evaluateOp 100]).activatedBanks = 0 ∧
      (RefreshManagerAllBank.runOps sampleConfig
        [RefreshManagerAllBank.Op.evaluateOp 100]).sleeping = false :=
  refresh_proposal_requires_idle_awake sampleConfig _ ⟨_, rfl⟩ (by decide)

open RefreshManagerAllBank in
/-- C3: when evaluate runs at or past the mandatory all-bank-refresh deadline
(state Regular, no fatal yet) and the refresh cannot issue because a bank is
activated or the rank is asleep: with refresh-management flexibility enabled
and postponement credit remaining, evaluate consumes exactly one unit of
credit, caches NOP as the proposal, and leaves the deadline unchanged (still
due next round) without raising a fatal; with no postponement credit
remaining, it raises the fatal protocol-violation diagnostic, consumes no
credit, and the manager is frozen from then on rather than retrying. -/
theorem evaluate_postpone_or_fatal (cfg : RefreshConfig) (now : Nat)
    (s : RefreshManagerAllBank)
    (hf : s.fatalRaised = false)
    (hdue : s.timeForNextTrigger ≤ now)
    (hreg : s.state = RState.Regular)
    (hblock : 0 < s.activatedBanks ∨ s.sleeping = true) :
    (cfg.refreshManagement = true → -cfg.maxPostponed < s.flexibilityCounter →
      (evaluate cfg now s).flexibilityCounter = s.flexibilityCounter - 1 ∧
        (evaluate cfg now s).nextCommand = Command.NOP ∧
        (evaluate cfg now s).timeForNextTrigger = s.timeForNextTrigger ∧
        (evaluate cfg now s).fatalRaised = false) ∧
    (cfg.refreshManagement = true → s.flexibilityCounter ≤ -cfg.maxPostponed →
      (evaluate cfg now s).fatalRaised = true ∧
        (evaluate cfg now s).nextCommand = Command.NOP ∧
        (evaluate cfg now s).flexibilityCounter = s.flexibilityCounter ∧
        ∀ now2 : Nat, evaluate cfg now2 (evaluate cfg now s) = evaluate cfg now s) := by
  have hcan : canIssueRefresh s = false := by
    simp only [canIssueRefresh, decide_eq_false_iff_not, not_and]
    intro hb hs
    rcases hblock with hb2 | hs2
    · omega
    · rw [hs] at hs2
      exact Bool.noConfusion hs2
  have hnpull : ¬s.state = RState.Pulledin := by
    rw [hreg]
    exact fun hc => RState.noConfusion hc
  constructor
  · intro hrm hcredit
    have hpe : postponeEligible cfg s = true := by
      simp [postponeEligible, hrm, hcredit]
    simp [evaluate, hf, hdue, hnpull, hcan, hpe]
  · intro hrm hnocredit
    have hpe : postponeEligible cfg s = false := by
      simp only [postponeEligible, Bool.and_eq_true, decide_eq_true_eq, Bool.and_eq_false_iff,
        decide_eq_false_iff_not]
      right
      omega
    refine ⟨?_, ?_, ?_, ?_⟩ <;>
      simp [evaluate, hf, hdue, hnpull, hcan, hpe]

open RefreshManagerAllBank in
/-- Witness for C3 at the sample configuration: at the deadline with one bank
activated and credit remaining, one unit of postponement credit is consumed,
NOP is cached, the deadline is retained and no fatal is raised. -/
theorem evaluate_postpone_or_fatal_witness :
    (evaluate sampleConfig 100 sampleBlocked).flexibilityCounter =
        sampleBlocked.flexibilityCounter - 1 ∧
      (evaluate sampleConfig 100 sampleBlocked).nextCommand = Command.NOP ∧
      (evaluate sampleConfig 100 sampleBlocked).timeForNextTrigger =
        sampleBlocked.timeForNextTrigger ∧
      (evaluate sampleConfig 100 sampleBlocked).fatalRaised = false :=
  (evaluate_postpone_or_fatal sampleConfig 100 sampleBlocked rfl (by decide) rfl
      (Or.inl (by decide))).1 rfl (by decide)

open RefreshManagerAllBank in
/-- C4: the state machine starts in Regular with flexibility counter 0;
evaluate and the two query operations never move the machine into PulledIn;
update moves Regular to PulledIn only for a committed REFRESH_ALL_BANK
strictly before the nominal deadline (never a nominally-due one), consuming
one unit of pull-in credit; and from PulledIn, evaluate returns to Regular
once the next nominal deadline is reached. -/
theorem state_machine_pulledin_transitions (cfg : RefreshConfig) :
    (init cfg).state = RState.Regular ∧
    (init cfg).flexibilityCounter = 0 ∧
    (∀ (now : Nat) (s : RefreshManagerAllBank),
      (evaluate cfg now s).state = RState.Pulledin → s.state = RState.Pulledin) ∧
    (∀ s : RefreshManagerAllBank, ((getNextCommand s).2).state = s.state) ∧
    (∀ s : RefreshManagerAllBank, ((getTimeForNextTrigger s).2).state = s.state) ∧
    (∀ (now : Nat) (cmd : Command) (s : RefreshManagerAllBank),
      s.state = RState.Regular → (update cfg now cmd s).state = RState.Pulledin →
        cmd = Command.REFRESH_ALL_BANK ∧ now < s.timeForNextTrigger ∧
          (update cfg now cmd s).flexibilityCounter = s.flexibilityCounter + 1) ∧
    (∀ (now : Nat) (s : RefreshManagerAllBank),
      s.fatalRaised = false → s.state = RState.Pulledin → s.timeForNextTrigger ≤ now →
        (evaluate cfg now s).state = RState.Regular) := by
  refine ⟨rfl, rfl, ?_, fun _ => rfl, fun _ => rfl, ?_, ?_⟩
  · intro now s hev
    unfold evaluate at hev
    split_ifs at hev
    all_goals exact hev
  · intro now cmd s hreg hupd
    unfold update at hupd
    split_ifs at hupd with hf ht hg hneg
    all_goals cases cmd
    all_goals simp_all [update]
  · intro now s hf hpull hdue
    simp [evaluate, hf, hdue, hpull]

open RefreshManagerAllBank in
/-- Witness for C4 at the sample configuration: an early committed
REFRESH_ALL_BANK at time 50 (before the deadline 100) that moves the freshly
constructed manager into PulledIn is confirmed to consume one unit of pull-in
credit. -/
theorem state_machine_pulledin_transitions_witness :
    Command.REFRESH_ALL_BANK = Command.REFRESH_ALL_BANK ∧
      50 < (init sampleConfig).timeForNextTrigger ∧
      (update sampleConfig 50 Command.REFRESH_ALL_BANK (init sampleConfig)).flexibilityCounter =
        (init sampleConfig).flexibilityCounter + 1 :=
  (state_machine_pulledin_transitions sampleConfig).2.2.2.2.2.1 50 Command.REFRESH_ALL_BANK
    (init sampleConfig) rfl (by decide)

open RefreshManagerAllBank in
/-- C5: getNextCommand leaves the manager's state unchanged, calling it twice
with no intervening evaluate or update returns the same value both times, and
it returns NOP when no command is due (after an evaluate before the deadline
with the pull-in conditions not holding, the cached proposal is NOP). -/
theorem getNextCommand_idempotent (cfg : RefreshConfig) (now : Nat)
    (s : RefreshManagerAllBank) :
    (getNextCommand s).2 = s ∧
    (getNextCommand ((getNextCommand s).2)).1 = (getNextCommand s).1 ∧
    (s.fatalRaised = false → now < s.timeForNextTrigger → pullInEligible cfg s = false →
      (getNextCommand (evaluate cfg now s)).1 = Command.NOP) := by
  refine ⟨rfl, rfl, ?_⟩
  intro hf hlt hpe
  simp [getNextCommand, evaluate, hf, hpe, Nat.not_le.mpr hlt]

open RefreshManagerAllBank in
/-- Witness for C5 with flexibility disabled: before the first deadline
nothing is due, so after evaluate the cached proposal read twice is NOP both
times and the state is untouched. -/
theorem getNextCommand_idempotent_witness :
    (getNextCommand (init sampleConfigNoFlex)).2 = init sampleConfigNoFlex ∧
      (getNextCommand ((getNextCommand (init sampleConfigNoFlex)).2)).1 =
        (getNextCommand (init sampleConfigNoFlex)).1 ∧
      (getNextCommand (evaluate sampleConfigNoFlex 50 (init sampleConfigNoFlex))).1 =
        Command.NOP :=
  ⟨(getNextCommand_idempotent sampleConfigNoFlex 50 (init sampleConfigNoFlex)).1,
    (getNextCommand_idempotent sampleConfigNoFlex 50 (init sampleConfigNoFlex)).2.1,
    (getNextCommand_idempotent sampleConfigNoFlex 50 (init sampleConfigNoFlex)).2.2 rfl
      (by decide) (by decide)⟩

/-- C6: constructing the memory specification for the unsupported DDR5
generation raises the fatal diagnostic ("MemSpecDDR5", "DDR5 model not
included!") immediately during construction, and if the object's queries are
nevertheless reached, getExecutionTime returns zero duration for every
command and payload and getSimMemSizeInBytes returns 0. -/
theorem memspec_ddr5_fatal_and_degenerate :
    MemSpecDDR5.construct.fatalReported = true ∧
    MemSpecDDR5.construct.fatalActor = "MemSpecDDR5" ∧
    MemSpecDDR5.construct.fatalMessage = "DDR5 model not included!" ∧
    (∀ (c : Command) (p : Payload), MemSpecDDR5.construct.getExecutionTime c p = 0) ∧
    MemSpecDDR5.construct.getSimMemSizeInBytes = 0 :=
  ⟨rfl, rfl, rfl, fun _ _ => rfl, rfl⟩

/-- C7: each invocation of the counted termination callback increments the
terminated-initiator count by one; after k invocations the count is exactly
k; the invocation that requests the stop is exactly the one that makes the
count equal the number of initiators built; and across a run of k
invocations, a stop has been requested precisely when the count has reached
the (positive) initiator total. -/
theorem termination_callback_counts (n k : Nat) :
    (∀ s : DriverState,
      (termianteInitiator n s).terminatedInitiators = s.terminatedInitiators + 1) ∧
    (runCallbacks n k).terminatedInitiators = k ∧
    (∀ s : DriverState, s.stopRequested = false →
      ((termianteInitiator n s).stopRequested = true ↔ s.terminatedInitiators + 1 = n)) ∧
    ((runCallbacks n k).stopRequested = true ↔ 1 ≤ n ∧ n ≤ k) := by
  have hcount : ∀ m : Nat, (runCallbacks n m).terminatedInitiators = m := by
    intro m
    induction m with
    | zero => rfl
    | succ m ih =>
      have hstep : (runCallbacks n (m + 1)).terminatedInitiators =
          (runCallbacks n m).terminatedInitiators + 1 := rfl
      rw [hstep, ih]
  refine ⟨fun s => rfl, hcount k, ?_, ?_⟩
  · intro s hs
    simp [termianteInitiator, hs]
  · induction k with
    | zero =>
      have hz : (runCallbacks n 0).stopRequested = false := rfl
      rw [hz]
      simp
      omega
    | succ k ih =>
      have hk := hcount k
      have hstep : (runCallbacks n (k + 1)).stopRequested =
          ((runCallbacks n k).stopRequested ||
            decide ((runCallbacks n k).terminatedInitiators + 1 = n)) := rfl
      rw [hstep, hk, Bool.or_eq_true, decide_eq_true_eq, ih]
      omega

/-- Witness for C7 with three initiators: the callback that takes the count
from 2 to 3 requests the stop. -/
theorem termination_callback_counts_witness :
    ((termianteInitiator 3 { terminatedInitiators := 2, stopRequested := false }).stopRequested
        = true ↔ (2 : Nat) + 1 = 3) :=
  (termination_callback_counts 3 3).2.2.1 { terminatedInitiators := 2, stopRequested := false }
    rfl

/-- Events produced by a successful initiator-construction loop are all
buildInitiator events; in particular no fatal report is among them. -/
lemma buildInitiators_ok_events (setups : List InitiatorConfig) (evs : List DriverEvent)
    (h : buildInitiators setups = Except.ok evs) :
    ∀ e ∈ evs, ∃ k, e = DriverEvent.buildInitiator k := by
  induction setups generalizing evs with
  | nil =>
    simp only [buildInitiators] at h
    cases h
    intro e he
    exact absurd he (List.not_mem_nil e)
  | cons c rest ih =>
    simp only [buildInitiators] at h
    revert h
    cases hone : buildOneInitiator c with
    | error ev => intro h; exact Except.noConfusion h
    | ok ev =>
      cases hrest : buildInitiators rest with
      | error evs2 => intro h; exact Except.noConfusion h
      | ok evs2 =>
        intro h
        cases h
        intro e he
        rcases List.mem_cons.mp he with he1 | he2
        · subst he1
          cases c with
          | trafficGenerator =>
            simp only [buildOneInitiator] at hone
            cases hone
            exact ⟨InitiatorKind.generator, rfl⟩
          | rowHammer =>
            simp only [buildOneInitiator] at hone
            cases hone
            exact ⟨InitiatorKind.hammer, rfl⟩
          | tracePlayer name =>
            simp only [buildOneInitiator] at hone
            revert hone
            cases buildTracePlayerInitiator name with
            | ok p => intro hone; cases hone; exact ⟨InitiatorKind.player, rfl⟩
            | error msg => intro hone; exact Except.noConfusion hone
        · exact ih evs2 hrest e he2

/-- C8: if the event loop drains without an explicit stop
(`sc_end_of_simulation_invoked()` returns false after `sc_start`), the driver
emits the user-visible warning after the simulation-start step, forces a
stop, still reports elapsed wall-clock time, returns 0, and raises no fatal
diagnostic. -/
theorem drained_without_stop_warns (cfg : SimulatorConfig) (setups : List InitiatorConfig)
    (evs : List DriverEvent) (hts : cfg.tracesetup = some setups)
    (hok : buildInitiators setups = Except.ok evs) :
    scMain cfg false =
      (DriverEvent.buildMemorySubsystem :: evs ++
        [DriverEvent.startSimulation,
         DriverEvent.warningReport "sc_main" "Simulation stopped without explicit sc_stop()",
         DriverEvent.forcedStop, DriverEvent.reportElapsed], some 0) ∧
    (∀ actor msg : String, DriverEvent.fatalReport actor msg ∉ (scMain cfg false).1) := by
  have hmain : scMain cfg false =
      (DriverEvent.buildMemorySubsystem :: evs ++
        [DriverEvent.startSimulation,
         DriverEvent.warningReport "sc_main" "Simulation stopped without explicit sc_stop()",
         DriverEvent.forcedStop, DriverEvent.reportElapsed], some 0) := by
    simp [scMain, hts, hok]
  refine ⟨hmain, ?_⟩
  intro actor msg hmem
  rw [hmain] at hmem
  simp at hmem
  obtain ⟨k, hk⟩ := buildInitiators_ok_events setups evs hok _ hmem
  exact DriverEvent.noConfusion hk

/-- Witness for C8 with an empty but present tracesetup: the run warns,
forces the stop, reports elapsed time and returns 0, with no fatal report. -/
theorem drained_without_stop_warns_witness :
    scMain { tracesetup := some [] } false =
      (DriverEvent.buildMemorySubsystem :: [] ++
        [DriverEvent.startSimulation,
         DriverEvent.warningReport "sc_main" "Simulation stopped without explicit sc_stop()",
         DriverEvent.forcedStop, DriverEvent.reportElapsed], some 0) ∧
    (∀ actor msg : String,
      DriverEvent.fatalReport actor msg ∉ (scMain { tracesetup := some [] } false).1) :=
  drained_without_stop_warns { tracesetup := some [] } [] [] rfl rfl

/-- C9: with no tracesetup in the loaded configuration, the driver raises
exactly the fatal diagnostic "No traffic initiators specified" and aborts;
the memory subsystem is never constructed, no initiator is constructed, and
the simulation never starts. -/
theorem no_tracesetup_fatal (cfg : SimulatorConfig) (endInvoked : Bool)
    (h : cfg.tracesetup = none) :
    scMain cfg endInvoked =
      ([DriverEvent.fatalReport "Simulator" "No traffic initiators specified"], none) ∧
    DriverEvent.buildMemorySubsystem ∉ (scMain cfg endInvoked).1 ∧
    (∀ k : InitiatorKind, DriverEvent.buildInitiator k ∉ (scMain cfg endInvoked).1) ∧
    DriverEvent.startSimulation ∉ (scMain cfg endInvoked).1 := by
  have hmain : scMain cfg endInvoked =
      ([DriverEvent.fatalReport "Simulator" "No traffic initiators specified"], none) := by
    simp [scMain, h]
  refine ⟨hmain, ?_, ?_, ?_⟩ <;> rw [hmain] <;> simp

/-- Witness for C9: the configuration whose tracesetup is absent. -/
theorem no_tracesetup_fatal_witness :
    scMain { tracesetup := none } true =
      ([DriverEvent.fatalReport "Simulator" "No traffic initiators specified"], none) ∧
    DriverEvent.buildMemorySubsystem ∉ (scMain { tracesetup := none } true).1 ∧
    (∀ k : InitiatorKind, DriverEvent.buildInitiator k ∉ (scMain { tracesetup := none } true).1) ∧
    DriverEvent.startSimulation ∉ (scMain { tracesetup := none } true).1 :=
  no_tracesetup_fatal { tracesetup := none } true rfl

/-- C10: the trace interpretation of a trace-player initiator is selected
solely from the file extension: ".stl" yields an absolute-time player,
".rstl" a relative-time player, and any other extension yields the fatal
diagnostic naming that extension instead of a constructed player. -/
theorem trace_type_from_file_extension (name : String) :
    (pathExtension name = ".stl" →
      buildTracePlayerInitiator name =
        Except.ok { tracePath := name, traceType := TraceType.Absolute }) ∧
    (pathExtension name = ".rstl" →
      buildTracePlayerInitiator name =
        Except.ok { tracePath := name, traceType := TraceType.Relative }) ∧
    (pathExtension name ≠ ".stl" → pathExtension name ≠ ".rstl" →
      buildTracePlayerInitiator name =
        Except.error (pathExtension name ++ " is not a valid trace format.")) := by
  refine ⟨?_, ?_, ?_⟩
  · intro h
    simp [buildTracePlayerInitiator, selectTraceType, h]
  · intro h
    simp [buildTracePlayerInitiator, selectTraceType, h]
  · intro h1 h2
    simp [buildTracePlayerInitiator, selectTraceType, h1, h2]

/-- Witness for C10 on three concrete trace names: "trace.stl" plays
absolute, "trace.rstl" plays relative, and "trace.txt" is rejected with the
fatal message naming ".txt". -/
theorem trace_type_from_file_extension_witness :
    buildTracePlayerInitiator "trace.stl" =
      Except.ok { tracePath := "trace.stl", traceType := TraceType.Absolute } ∧
    buildTracePlayerInitiator "trace.rstl" =
      Except.ok { tracePath := "trace.rstl", traceType := TraceType.Relative } ∧
    buildTracePlayerInitiator "trace.txt" =
      Except.error (pathExtension "trace.txt" ++ " is not a valid trace format.") :=
  ⟨(trace_type_from_file_extension "trace.stl").1 (by decide),
   (trace_type_from_file_extension "trace.rstl").2.1 (by decide),
   (trace_type_from_file_extension "trace.txt").2.2 (by decide) (by decide)⟩

end DRAMSys
